import Mathlib

/-!
Verification development for the NJ-Go caching and recommendation core.

The TypeScript sources are embedded shallowly:
* `CacheService.ts` — two-tier cache (local tier as an association list with
  JS-`Map` semantics, remote tier as an abstract request/response collaborator);
  epoch times are integers (milliseconds), TTLs are naturals (seconds).
* `CacheInvalidationService.ts` — pattern sweeps on top of the cache store.
* `TransitRecommendationService.ts` — time-slot matching, cache-key
  construction and the heading-relevance filter; scores are exact rationals.
* `LocationService.ts` — geofence first-match selection and magnetometer
  heading derivation; coordinates and angles are real numbers, with
  `Math.atan2` / `%` / `Math.round` modelled by their exact mathematical
  counterparts.

Effects are made explicit: `Date.now()` becomes a `now : ℤ` argument, the
mutable local `Map` is threaded as a value, a remote round trip becomes an
argument describing its outcome (`none` modelling a thrown network error),
and the async producer of `getOrSet` becomes a pure value together with an
invocation counter in the result.
-/

namespace NJGo

/-! ## String helpers (models of the JS string primitives used) -/

/-- Character-list version of "the first list starts with the second":
`listStartsWith p l` is `true` iff `p` is a prefix of `l`. -/
def listStartsWith : List Char → List Char → Bool
  | [], _ => true
  | _ :: _, [] => false
  | p :: ps, c :: cs => p == c && listStartsWith ps cs

/-- `containsSub hay pat` models JS `hay.includes(pat)`: literal substring
containment (no glob or regex interpretation). -/
def containsSub : List Char → List Char → Bool
  | [], pat => pat.isEmpty
  | c :: t, pat => listStartsWith pat (c :: t) || containsSub t pat

/-- JS `String.prototype.includes`, on `String`. -/
def strContains (hay pat : String) : Bool :=
  containsSub hay.data pat.data

/-- JS `Array.prototype.join(',')`. -/
def joinComma : List String → String
  | [] => ""
  | [s] => s
  | s :: rest => s ++ "," ++ joinComma rest

/-- Left-pad a digit string with zeros up to `width` characters. -/
def padZeros (s : String) (width : ℕ) : String :=
  String.mk (List.replicate (width - s.length) '0') ++ s

/-- Model of JS `Number.prototype.toFixed(p)` on exact rational inputs:
round to the nearest multiple of `10^(-p)` (ECMA picks the larger value on
ties, i.e. `⌊x·10^p + 1/2⌋`) and print with exactly `p` fractional digits.
Faithful for the exact inputs used in this development; the `-` sign of a
negative value that rounds to zero is dropped, a case that never occurs
here. -/
def toFixed (x : ℚ) (p : ℕ) : String :=
  let r : ℤ := ⌊x * (10 : ℚ) ^ p + 1/2⌋
  let m : ℕ := r.natAbs
  let ip : ℕ := m / 10 ^ p
  let fp : ℕ := m % 10 ^ p
  let sign : String := if r < 0 then "-" else ""
  if p = 0 then sign ++ toString ip
  else sign ++ toString ip ++ "." ++ padZeros (toString fp) p

/-! ## CacheService (src/services/CacheService.ts) -/

/-- `CacheService.CACHE_KEYS` (lines 20-26). -/
def CACHE_KEYS_TRANSIT_ARRIVALS : String := "transit_arrivals"

def CACHE_KEYS_TRAVEL_RECOMMENDATIONS : String := "travel_recommendations"

def CACHE_KEYS_ROUTE_PLANS : String := "route_plans"

def CACHE_KEYS_WAITING_SPOTS : String := "waiting_spots"

def CACHE_KEYS_USER_LOCATIONS : String := "user_locations"

/-- `CacheService.DEFAULT_TTL` (lines 29-35), in seconds. -/
def DEFAULT_TTL_TRANSIT_ARRIVALS : ℕ := 60

def DEFAULT_TTL_TRAVEL_RECOMMENDATIONS : ℕ := 300

def DEFAULT_TTL_ROUTE_PLANS : ℕ := 1800

def DEFAULT_TTL_WAITING_SPOTS : ℕ := 3600

def DEFAULT_TTL_USER_LOCATIONS : ℕ := 30

/-- `CachedData<T>` (lines 8-12): `timestamp` is `Date.now()` in epoch
milliseconds; `ttl` is optional in TS and `0` is falsy there, so it is
modelled as `Option ℕ` with `some 0` also behaving as falsy. -/
structure CachedData (α : Type) where
  data : α
  timestamp : ℤ
  ttl : Option ℕ
deriving DecidableEq

/-- The process-local tier: `localCache = new Map<string, CachedData<any>>()`
as an association list in insertion order. -/
abbrev LocalCache (α : Type) := List (String × CachedData α)

variable {α : Type}

/-- JS `Map.prototype.get`. -/
def mapGet (m : LocalCache α) (k : String) : Option (CachedData α) :=
  match m with
  | [] => none
  | (k', v) :: t => if k' = k then some v else mapGet t k

/-- JS `Map.prototype.set`: replaces in place, or appends. -/
def mapSet (m : LocalCache α) (k : String) (v : CachedData α) : LocalCache α :=
  match m with
  | [] => [(k, v)]
  | (k', v') :: t => if k' = k then (k, v) :: t else (k', v') :: mapSet t k v

/-- JS `Map.prototype.delete`. -/
def mapDelete (m : LocalCache α) (k : String) : LocalCache α :=
  match m with
  | [] => []
  | (k', v') :: t => if k' = k then t else (k', v') :: mapDelete t k

/-- `CacheService.isExpired` (lines 177-180):
`if (!cached.ttl) return false; return Date.now() - cached.timestamp > cached.ttl * 1000;`
(`!cached.ttl` is true for both a missing and a zero `ttl`). -/
def isExpired (now : ℤ) (cached : CachedData α) : Bool :=
  match cached.ttl with
  | none => false
  | some t => if t = 0 then false else decide (now - cached.timestamp > (t : ℤ) * 1000)

/-- `CacheService.getFromLocalCache` (lines 156-167); also returns the
updated map because an expired entry is evicted on the way. -/
def getFromLocalCache (now : ℤ) (cache : LocalCache α) (key : String) :
    LocalCache α × Option α :=
  match mapGet cache key with
  | some cached =>
    if isExpired now cached then (mapDelete cache key, none)
    else (cache, some cached.data)
  | none => (cache, none)

/-- `CacheService.setInLocalCache` (lines 169-175). -/
def setInLocalCache (now : ℤ) (cache : LocalCache α) (key : String) (data : α)
    (ttl : ℕ) : LocalCache α :=
  mapSet cache key ⟨data, now, some ttl⟩

/-- One remote round trip of the Lambda cache collaborator:
`none` models a thrown network/configuration error, `some r` a response
`{success, data}` (a missing `data` field is `data := none`). -/
structure RemoteResponse (α : Type) where
  success : Bool
  data : Option α

/-- `CacheService.getFromRemoteCache` (lines 191-207): the `try/catch`
swallows a thrown error into `null`, and a response only counts when
`response.data?.success && response.data?.data`. -/
def getFromRemoteCache (resp : Option (RemoteResponse α)) : Option α :=
  match resp with
  | none => none
  | some r => if r.success then r.data else none

/-- The raw remote `set` call, which may throw (`Except.error`). -/
def remoteSetCall (remoteFails : Bool) : Except String Unit :=
  if remoteFails then Except.error "network error" else Except.ok ()

/-- `CacheService.setInRemoteCache` (lines 209-220): the `try/catch` turns a
thrown remote error into a logged warning, never re-throwing. -/
def setInRemoteCache (remoteFails : Bool) : Unit :=
  match remoteSetCall remoteFails with
  | Except.ok u => u
  | Except.error _ => ()

/-- `const ttl = options.ttl || CacheService.DEFAULT_TTL.TRAVEL_RECOMMENDATIONS;`
(line 78); JS `||` also replaces a falsy `ttl: 0` by the default. -/
def resolveTtl (options : Option ℕ) : ℕ :=
  match options with
  | none => DEFAULT_TTL_TRAVEL_RECOMMENDATIONS
  | some t => if t = 0 then DEFAULT_TTL_TRAVEL_RECOMMENDATIONS else t

/-- `CacheService.set` (lines 76-91): local write, then best-effort remote
write; `setInRemoteCache` cannot throw, so the surrounding `try` always
reaches `return true`. -/
def set (now : ℤ) (cache : LocalCache α) (key : String) (data : α)
    (options : Option ℕ) (remoteFails : Bool) : LocalCache α × Bool :=
  let ttl := resolveTtl options
  let cache1 := setInLocalCache now cache key data ttl
  let _ := setInRemoteCache remoteFails
  (cache1, true)

/-- `CacheService.get` (lines 52-73): local tier first, then the remote
tier; a remote hit is copied into the local tier with the default
travel-recommendations TTL. -/
def get (now : ℤ) (cache : LocalCache α) (key : String)
    (remoteResp : Option (RemoteResponse α)) : LocalCache α × Option α :=
  let r := getFromLocalCache now cache key
  match r.2 with
  | some v => (r.1, some v)
  | none =>
    match getFromRemoteCache remoteResp with
    | some v =>
      (setInLocalCache now r.1 key v DEFAULT_TTL_TRAVEL_RECOMMENDATIONS, some v)
    | none => (r.1, none)

/-- `CacheService.getOrSet` (lines 250-266). The async producer is modelled
by the pure value it would return; the third component of the result counts
how many times the producer was invoked during the call. -/
def getOrSet (now : ℤ) (cache : LocalCache α) (key : String) (producerVal : α)
    (options : Option ℕ) (remoteResp : Option (RemoteResponse α))
    (remoteFails : Bool) : LocalCache α × α × ℕ :=
  let r := get now cache key remoteResp
  match r.2 with
  | some cachedData => (r.1, cachedData, 0)
  | none =>
    let freshData := producerVal
    let s := set now r.1 key freshData options remoteFails
    (s.1, freshData, 1)

/-- `CacheService.invalidatePattern` (lines 269-280): removes every local
key containing the pattern as a literal substring; the remote tier is only
logged at. -/
def invalidatePattern (cache : LocalCache α) (pat : String) : LocalCache α :=
  cache.filter (fun kv => !(strContains kv.1 pat))

/-- `CacheService.getTransitArrivalsKey` (lines 129-131). -/
def getTransitArrivalsKey (stopId : String) : String :=
  CACHE_KEYS_TRANSIT_ARRIVALS ++ ":" ++ stopId

/-- `CacheService.getRecommendationsKey` (lines 134-136). -/
def getRecommendationsKey (planId locationHash : String) : String :=
  CACHE_KEYS_TRAVEL_RECOMMENDATIONS ++ ":" ++ planId ++ ":" ++ locationHash

/-- `CacheService.getRoutePlansKey` (lines 139-141). -/
def getRoutePlansKey (userId : String) : String :=
  CACHE_KEYS_ROUTE_PLANS ++ ":" ++ userId

/-- `CacheService.getWaitingSpotsKey` (lines 144-146). -/
def getWaitingSpotsKey (areaId : String) : String :=
  CACHE_KEYS_WAITING_SPOTS ++ ":" ++ areaId

/-- `CacheService.createLocationHash` (lines 149-153); coordinates are
modelled as exact rationals. -/
def createLocationHash (latitude longitude : ℚ) (precision : ℕ) : String :=
  toFixed latitude precision ++ "," ++ toFixed longitude precision

/-! ## CacheInvalidationService (src/services/CacheInvalidationService.ts) -/

/-- `CacheInvalidationService.invalidateLocationData` (lines 50-61): note the
literal `*` character inside the first pattern. -/
def invalidateLocationData (cache : LocalCache α) (latitude longitude : ℚ) :
    LocalCache α :=
  let locationHash := createLocationHash latitude longitude 3
  let cache1 := invalidatePattern cache ("travel_recommendations:*:" ++ locationHash)
  let areaHash := createLocationHash latitude longitude 2
  invalidatePattern cache1 ("waiting_spots:" ++ areaHash)

/-! ## TransitRecommendationService (src/services/TransitRecommendationService.ts)

Data model from `src/types/index.ts`; the `Date` audit fields (`createdAt`,
`updatedAt`), which the embedded functions never read, are omitted. -/

/-- `TimeSlot` (types/index.ts). -/
structure TimeSlot where
  id : String
  dayOfWeek : ℕ
  startTime : String
  endTime : String
  destinationIds : List String
deriving DecidableEq

/-- `Destination` (types/index.ts); coordinates as exact rationals. -/
structure Destination where
  id : String
  name : String
  latitude : ℚ
  longitude : ℚ
  address : String
deriving DecidableEq

/-- `TravelPlan` (types/index.ts). -/
structure TravelPlan where
  id : String
  userId : String
  name : String
  timeSlots : List TimeSlot
  destinations : List Destination
  isActive : Bool
deriving DecidableEq

/-- One character-list piece of JS `str.split(':')`. -/
def splitColonAux : List Char → List (List Char)
  | [] => [[]]
  | c :: rest =>
    let r := splitColonAux rest
    if c = ':' then [] :: r
    else
      match r with
      | [] => [[c]]
      | h :: t => (c :: h) :: t

/-- JS `Number(...)` on a decimal digit string, as used by `timeToMinutes`;
`none` models `NaN` (and `Number("") = 0` is matched by the empty fold). -/
def parseNum (l : List Char) : Option ℕ :=
  l.foldl
    (fun acc c =>
      match acc, (if c.isDigit then some (c.toNat - '0'.toNat) else none) with
      | some n, some d => some (n * 10 + d)
      | _, _ => none)
    (some 0)

/-- `TransitRecommendationService.timeToMinutes` (lines 343-346):
`const [hours, minutes] = timeStr.split(':').map(Number); return hours * 60 + minutes;`.
All call sites pass well-formed `"HH:MM"` strings; a malformed string (JS
`NaN` arithmetic) is modelled as `0`. -/
def timeToMinutes (timeStr : String) : ℕ :=
  match (splitColonAux timeStr.data).map parseNum with
  | some hours :: some minutes :: _ => hours * 60 + minutes
  | _ => 0

/-- `TransitRecommendationService.isTimeInRange` (lines 324-335). -/
def isTimeInRange (currentTime startTime endTime : String) : Bool :=
  let current := timeToMinutes currentTime
  let start := timeToMinutes startTime
  let endM := timeToMinutes endTime
  if start ≤ endM then decide (current ≥ start) && decide (current ≤ endM)
  else decide (current ≥ start) || decide (current ≤ endM)

/-- `TransitRecommendationService.getActiveTravelPlans` (lines 91-105); the
`Date` argument is reduced to the two projections the code takes from it,
`getDay()` and the formatted `"HH:MM"` clock string. -/
def getActiveTravelPlans (travelPlans : List TravelPlan) (dayOfWeek : ℕ)
    (currentTimeStr : String) : List TravelPlan :=
  travelPlans.filter (fun plan =>
    plan.isActive &&
      plan.timeSlots.any (fun slot =>
        slot.dayOfWeek == dayOfWeek &&
          isTimeInRange currentTimeStr slot.startTime slot.endTime))

/-- Steps 1-2 of `TransitRecommendationService.getRecommendations`
(lines 37-48): the recommendation cache key is
`getRecommendationsKey(activePlans.map(p => p.id).join(','), createLocationHash(lat, lng))`. -/
def getRecommendationsCacheKey (travelPlans : List TravelPlan) (dayOfWeek : ℕ)
    (currentTimeStr : String) (latitude longitude : ℚ) : String :=
  let activePlans := getActiveTravelPlans travelPlans dayOfWeek currentTimeStr
  let locationHash := createLocationHash latitude longitude 3
  getRecommendationsKey (joinComma (activePlans.map (fun p => p.id))) locationHash

/-- `TransitRecommendationService.calculateHeadingScore` (lines 307-315);
headings are numbers, modelled as exact rationals. -/
def calculateHeadingScore (transitHeading userHeading : ℚ) : ℚ :=
  let diff0 := |transitHeading - userHeading|
  let diff := if 180 < diff0 then 360 - diff0 else diff0
  1 - diff / 180

/-- `TransitRecommendationService.isRelevantDirection` (lines 318-321):
`return diff > 0.3` where `diff` is the heading score. -/
def isRelevantDirection (transitHeading userHeading : ℚ) : Bool :=
  decide ((3 : ℚ)/10 < calculateHeadingScore transitHeading userHeading)

/-! ## LocationService (src/services/LocationService.ts)

Geometry over the reals: `Math.atan2`, `Math.sin`, `Math.cos`, `Math.sqrt`,
`%` and `Math.round` are modelled by their exact mathematical counterparts. -/

/-- `Location` (types/index.ts). -/
structure Location where
  latitude : ℝ
  longitude : ℝ

/-- `WaitingSpot` (types/index.ts); the fields the embedded functions never
read (`userId`, `name`, `transitStops`, `createdAt`) are omitted. -/
structure WaitingSpot where
  id : String
  latitude : ℝ
  longitude : ℝ
  radius : ℝ
  isActive : Bool

/-- JS `Math.atan2(y, x)` (signed zeros aside, which never arise over ℝ). -/
noncomputable def atan2 (y x : ℝ) : ℝ :=
  if 0 < x then Real.arctan (y / x)
  else if x < 0 then
    (if 0 ≤ y then Real.arctan (y / x) + Real.pi else Real.arctan (y / x) - Real.pi)
  else
    (if 0 < y then Real.pi / 2 else if y < 0 then -(Real.pi / 2) else 0)

/-- JS `a % b` for the nonnegative dividend and positive divisor used in
`calculateHeading` (there JS truncated remainder and floor remainder agree). -/
noncomputable def jsMod (a b : ℝ) : ℝ :=
  a - b * ⌊a / b⌋

/-- `LocationService.calculateHeading` (lines 219-232); the `z` component of
the magnetometer sample is taken but never read, as in the source. -/
noncomputable def calculateHeading (x y z : ℝ) : ℤ :=
  let angle := atan2 y x * (180 / Real.pi)
  let angle1 := if angle < 0 then angle + 360 else angle
  let angle2 := jsMod (angle1 + 90) 360
  round angle2

/-- `LocationService.calculateDistance` (lines 298-307): haversine distance
in meters. -/
noncomputable def calculateDistance (point1 point2 : Location) : ℝ :=
  let R : ℝ := 6371000
  let dLat := (point2.latitude - point1.latitude) * Real.pi / 180
  let dLng := (point2.longitude - point1.longitude) * Real.pi / 180
  let a := Real.sin (dLat / 2) * Real.sin (dLat / 2) +
    Real.cos (point1.latitude * Real.pi / 180) *
      Real.cos (point2.latitude * Real.pi / 180) *
      (Real.sin (dLng / 2) * Real.sin (dLng / 2))
  let c := 2 * atan2 (Real.sqrt a) (Real.sqrt (1 - a))
  R * c

/-- The spot-selection loop of `LocationService.checkWaitingSpots`
(lines 272-295): iterate `this.waitingSpots` in order and `break` at the
first spot whose distance from the sample is within its radius. The
notification bookkeeping below the loop does not affect the selection and is
not modelled. -/
noncomputable def checkWaitingSpots (spots : List WaitingSpot) (location : Location) :
    Option WaitingSpot :=
  match spots with
  | [] => none
  | spot :: rest =>
    if calculateDistance location ⟨spot.latitude, spot.longitude⟩ ≤ spot.radius
    then some spot
    else checkWaitingSpots rest location

/-! ## Concrete sample data used by witnesses and counterexamples -/

/-- A time slot on Monday from 08:00 to 10:00. -/
def sampleSlot : TimeSlot := ⟨"s1", 1, "08:00", "10:00", []⟩

/-- An active plan with id "a" whose slot matches Monday 09:00. -/
def planA : TravelPlan := ⟨"a", "u1", "Plan A", [sampleSlot], [], true⟩

/-- An active plan with id "b" whose slot matches Monday 09:00. -/
def planB : TravelPlan := ⟨"b", "u1", "Plan B", [sampleSlot], [], true⟩

/-- An inactive plan; it never matches. -/
def planInactive : TravelPlan := ⟨"c", "u1", "Plan C", [sampleSlot], [], false⟩

/-- A waiting spot of radius 100 m centered at the origin. -/
def spotA : WaitingSpot := ⟨"A", 0, 0, 100, true⟩

/-- A waiting spot of radius 50 m, also centered at the origin (so it
overlaps `spotA` and its center is at least as near to the sample). -/
def spotB : WaitingSpot := ⟨"B", 0, 0, 50, true⟩

/-- A waiting spot of radius 100 m on the opposite side of the globe. -/
def spotFar : WaitingSpot := ⟨"far", 0, 180, 100, true⟩

/-! ## Helper lemmas -/

theorem mapGet_mapSet_self (m : LocalCache α) (k : String) (v : CachedData α) :
    mapGet (mapSet m k v) k = some v := by
  induction m with
  | nil => simp [mapSet, mapGet]
  | cons kv t ih =>
    by_cases h : kv.1 = k
    · simp [mapSet, mapGet, h]
    · simp [mapSet, mapGet, h, ih]

theorem resolveTtl_pos (options : Option ℕ) : 0 < resolveTtl options := by
  cases options with
  | none => simp [resolveTtl, DEFAULT_TTL_TRAVEL_RECOMMENDATIONS]
  | some t =>
    by_cases h : t = 0 <;>
      simp [resolveTtl, h, DEFAULT_TTL_TRAVEL_RECOMMENDATIONS, Nat.pos_of_ne_zero]

theorem toFixed_one_three : toFixed 1 3 = "1.000" := by
  simp only [toFixed]
  rw [show (⌊(1 : ℚ) * (10 : ℚ) ^ 3 + 1/2⌋ : ℤ) = 1000 by norm_num [Int.floor_eq_iff]]
  decide

theorem toFixed_two_three : toFixed 2 3 = "2.000" := by
  simp only [toFixed]
  rw [show (⌊(2 : ℚ) * (10 : ℚ) ^ 3 + 1/2⌋ : ℤ) = 2000 by norm_num [Int.floor_eq_iff]]
  decide

theorem toFixed_one_two : toFixed 1 2 = "1.00" := by
  simp only [toFixed]
  rw [show (⌊(1 : ℚ) * (10 : ℚ) ^ 2 + 1/2⌋ : ℤ) = 100 by norm_num [Int.floor_eq_iff]]
  decide

theorem toFixed_two_two : toFixed 2 2 = "2.00" := by
  simp only [toFixed]
  rw [show (⌊(2 : ℚ) * (10 : ℚ) ^ 2 + 1/2⌋ : ℤ) = 200 by norm_num [Int.floor_eq_iff]]
  decide

theorem hash_12_prec3 : createLocationHash 1 2 3 = "1.000,2.000" := by
  rw [createLocationHash, toFixed_one_three, toFixed_two_three]
  decide

theorem hash_12_prec2 : createLocationHash 1 2 2 = "1.00,2.00" := by
  rw [createLocationHash, toFixed_one_two, toFixed_two_two]
  decide

theorem arctan_le_of_nonneg {t : ℝ} (ht : 0 ≤ t) : Real.arctan t ≤ t := by
  have h0 : 0 ≤ Real.arctan t := by
    have := Real.arctan_strictMono.monotone ht
    rwa [Real.arctan_zero] at this
  have h2 := Real.le_tan h0 (Real.arctan_lt_pi_div_two t)
  rwa [Real.tan_arctan] at h2

theorem calculateDistance_self (p : Location) : calculateDistance p p = 0 := by
  simp [calculateDistance, atan2, Real.sqrt_one]

theorem calculateDistance_antipodal :
    calculateDistance ⟨0, 0⟩ ⟨0, 180⟩ = 6371000 * Real.pi := by
  simp only [calculateDistance, atan2]
  rw [show ((0 : ℝ) - 0) * Real.pi / 180 = 0 by ring,
    show ((180 : ℝ) - 0) * Real.pi / 180 = Real.pi by ring,
    show (0 : ℝ) * Real.pi / 180 = 0 by ring]
  norm_num [Real.sin_pi_div_two, Real.sqrt_one]
  ring

/-! ## Claim C1 -/

/-- C1 counterexample: an entry stored through `set` at epoch-ms 0 with
ttl = 1 second is still returned by `get` at elapsed time exactly 1 second
(1000 ms), because `isExpired` uses a strict `>` comparison — contradicting
the claim that `get` returns absent whenever the elapsed time is ≥ T
seconds, including exactly T. -/
theorem c1_counterexample :
    (get 1000 ((set 0 ([] : LocalCache ℕ) "k" 42 (some 1) false).1) "k" none).2 =
      some 42 := rfl

/-- C1 (amended): for an entry stored via `set` with a nonzero ttl of T
seconds, `get` returns the stored value whenever the elapsed time is
≤ T·1000 ms (including exactly T seconds), and — when the remote tier
yields nothing — returns absent whenever the elapsed time is strictly
greater than T·1000 ms. -/
theorem c1_ttl_expiry (α : Type) (cache : LocalCache α) (key : String) (v : α)
    (T : ℕ) (hT : T ≠ 0) (remoteFails : Bool) (t0 now : ℤ)
    (resp : Option (RemoteResponse α)) :
    (now - t0 ≤ (T : ℤ) * 1000 →
      (get now ((set t0 cache key v (some T) remoteFails).1) key resp).2 = some v) ∧
    (getFromRemoteCache resp = none → (T : ℤ) * 1000 < now - t0 →
      (get now ((set t0 cache key v (some T) remoteFails).1) key resp).2 = none) := by
  have hstore : (set t0 cache key v (some T) remoteFails).1 =
      mapSet cache key ⟨v, t0, some T⟩ := by
    simp [set, setInLocalCache, resolveTtl, hT]
  constructor
  · intro h
    have hnot : ¬ (T : ℤ) * 1000 < now - t0 := not_lt.mpr h
    simp [get, getFromLocalCache, hstore, mapGet_mapSet_self, isExpired, hT, hnot]
  · intro hmiss h
    simp [get, getFromLocalCache, hstore, mapGet_mapSet_self, isExpired, hT, h, hmiss]

/-- C1 witness: the amended theorem applied at ttl = 1 s, store time 0,
read times 500 ms (value present) and 1001 ms (absent). -/
theorem c1_ttl_expiry_witness :
    (get 500 ((set 0 ([] : LocalCache ℕ) "kk" 7 (some 1) false).1) "kk" none).2 =
      some 7 ∧
    (get 1001 ((set 0 ([] : LocalCache ℕ) "kk" 7 (some 1) false).1) "kk" none).2 =
      none :=
  ⟨(c1_ttl_expiry ℕ [] "kk" 7 1 (by decide) false 0 500 none).1 (by decide),
   (c1_ttl_expiry ℕ [] "kk" 7 1 (by decide) false 0 1001 none).2 rfl (by decide)⟩

/-! ## Claim C2 -/

/-- C2 counterexample: `getRecommendations` joins the matching plan ids in
input order without sorting (`activePlans.map(p => p.id).join(',')`), so the
same two matching plans presented in different orders at the same location
produce different cache keys — contradicting the claim. -/
theorem c2_counterexample :
    getRecommendationsCacheKey [planA, planB] 1 "09:00" 1 2 ≠
      getRecommendationsCacheKey [planB, planA] 1 "09:00" 1 2 := by
  simp only [getRecommendationsCacheKey, hash_12_prec3]
  decide

/-- C2 (amended): the recommendation cache key is built from the
comma-joined ids of the matching plans in their input order (not sorted)
plus the 3-decimal location hash; two input plan lists whose matching plans
carry the same ids in the same order yield the identical key. -/
theorem c2_key_from_matching_ids (plans1 plans2 : List TravelPlan)
    (dayOfWeek : ℕ) (timeStr : String) (lat lng : ℚ)
    (h : (getActiveTravelPlans plans1 dayOfWeek timeStr).map (fun p => p.id) =
      (getActiveTravelPlans plans2 dayOfWeek timeStr).map (fun p => p.id)) :
    getRecommendationsCacheKey plans1 dayOfWeek timeStr lat lng =
      getRecommendationsCacheKey plans2 dayOfWeek timeStr lat lng := by
  simp only [getRecommendationsCacheKey]
  rw [h]

/-- C2 witness: inserting an inactive plan between the two matching plans
does not change the matching id sequence, hence not the key. -/
theorem c2_key_from_matching_ids_witness :
    getRecommendationsCacheKey [planA, planInactive, planB] 1 "09:00" 1 2 =
      getRecommendationsCacheKey [planA, planB] 1 "09:00" 1 2 :=
  c2_key_from_matching_ids [planA, planInactive, planB] [planA, planB] 1 "09:00"
    1 2 (by decide)

/-! ## Claim C3 -/

/-- C3 counterexample: a transit option whose heading differs from the
user's heading by exactly 108° has score 1 − 108/180 = 0.4 > 0.3 and is
therefore kept by `isRelevantDirection` — contradicting the claim that it
is excluded. -/
theorem c3_counterexample : isRelevantDirection 108 0 = true := by
  norm_num [isRelevantDirection, calculateHeadingScore]

/-- C3 (amended): the filter keeps an option iff its score 1 − diff/180
exceeds 0.3, which (in the exact-arithmetic model) is equivalent to the
angular difference being strictly below 126°, not 108°. -/
theorem c3_relevance_threshold (transitHeading userHeading : ℚ) :
    isRelevantDirection transitHeading userHeading = true ↔
      (if 180 < |transitHeading - userHeading|
       then 360 - |transitHeading - userHeading|
       else |transitHeading - userHeading|) < 126 := by
  simp only [isRelevantDirection, calculateHeadingScore, decide_eq_true_eq]
  rcases le_or_lt |transitHeading - userHeading| 180 with hc | hc <;>
    constructor <;> intro h <;> linarith

/-! ## Claim C4 -/

/-- C4, evaluated at the failing input: `invalidateLocationData(1, 2)` on a
cache holding the recommendation key `travel_recommendations:p1:1.000,2.000`
and the waiting-spot key `waiting_spots:1.00,2.00`. The waiting-spot key is
swept, but the recommendation key referencing the 3-decimal hash survives:
the code builds the pattern `travel_recommendations:*:1.000,2.000` with a
literal `*`, and `invalidatePattern` matches patterns as literal substrings,
which no real recommendation key contains. -/
theorem c4_failing_input :
    invalidateLocationData
        ([("travel_recommendations:p1:1.000,2.000", ⟨1, 0, some 300⟩),
          ("waiting_spots:1.00,2.00", ⟨2, 0, some 3600⟩)] : LocalCache ℕ) 1 2 =
      [("travel_recommendations:p1:1.000,2.000", ⟨1, 0, some 300⟩)] := by
  simp only [invalidateLocationData, hash_12_prec3, hash_12_prec2]
  decide

/-! ## Claim C5 -/

/-- C5: for every key, value, ttl option and remote outcome — including a
remote-tier write that throws (`remoteFails = true`) — `set` writes the
entry into the local tier and returns `true`; the remote failure is
swallowed by `setInRemoteCache` and never propagated. -/
theorem c5_set_swallows_remote_failure (α : Type) (now : ℤ)
    (cache : LocalCache α) (key : String) (v : α) (options : Option ℕ)
    (remoteFails : Bool) :
    (set now cache key v options remoteFails).2 = true ∧
    mapGet (set now cache key v options remoteFails).1 key =
      some ⟨v, now, some (resolveTtl options)⟩ := by
  refine ⟨rfl, ?_⟩
  simp [set, setInLocalCache, mapGet_mapSet_self]

/-! ## Claim C6 -/

/-- C6: calling `getOrSet` on a key with no cached value (local miss and
remote miss) invokes the producer exactly once and returns its result; a
second `getOrSet` on the same key before the TTL expires returns the value
cached by the first call and does not invoke the producer again (its
invocation count is 0), whatever the second call's producer, options or
remote outcome. -/
theorem c6_getOrSet_single_compute (α : Type) (cache : LocalCache α)
    (key : String) (pv pv2 : α) (options options2 : Option ℕ)
    (resp resp2 : Option (RemoteResponse α)) (fails fails2 : Bool)
    (now now2 : ℤ)
    (h0 : mapGet cache key = none)
    (hmiss : getFromRemoteCache resp = none)
    (hfresh : now2 - now ≤ (resolveTtl options : ℤ) * 1000) :
    (getOrSet now cache key pv options resp fails).2.1 = pv ∧
    (getOrSet now cache key pv options resp fails).2.2 = 1 ∧
    (getOrSet now2 (getOrSet now cache key pv options resp fails).1 key pv2
        options2 resp2 fails2).2.1 = pv ∧
    (getOrSet now2 (getOrSet now cache key pv options resp fails).1 key pv2
        options2 resp2 fails2).2.2 = 0 := by
  have hget1 : get now cache key resp = (cache, none) := by
    simp [get, getFromLocalCache, h0, hmiss]
  have hr1 : getOrSet now cache key pv options resp fails =
      (mapSet cache key ⟨pv, now, some (resolveTtl options)⟩, pv, 1) := by
    simp [getOrSet, hget1, set, setInLocalCache]
  have hexp : isExpired now2
      (⟨pv, now, some (resolveTtl options)⟩ : CachedData α) = false := by
    simp only [isExpired]
    rw [if_neg (resolveTtl_pos options).ne']
    exact decide_eq_false (not_lt.mpr hfresh)
  have hget2 : get now2 (mapSet cache key ⟨pv, now, some (resolveTtl options)⟩)
      key resp2 =
      (mapSet cache key ⟨pv, now, some (resolveTtl options)⟩, some pv) := by
    simp [get, getFromLocalCache, mapGet_mapSet_self, hexp]
  refine ⟨by simp [hr1], by simp [hr1], ?_, ?_⟩ <;> rw [hr1] <;>
    simp [getOrSet, hget2]

/-- C6 witness: first call on an empty cache computes (count 1) and returns
7; the second call 1000 ms later returns the cached 7 without computing
(count 0), even though its producer would return 8. -/
theorem c6_getOrSet_single_compute_witness :
    (getOrSet 0 ([] : LocalCache ℕ) "k" 7 none none false).2.1 = 7 ∧
    (getOrSet 0 ([] : LocalCache ℕ) "k" 7 none none false).2.2 = 1 ∧
    (getOrSet 1000 ((getOrSet 0 ([] : LocalCache ℕ) "k" 7 none none false).1)
        "k" 8 none none false).2.1 = 7 ∧
    (getOrSet 1000 ((getOrSet 0 ([] : LocalCache ℕ) "k" 7 none none false).1)
        "k" 8 none none false).2.2 = 0 :=
  c6_getOrSet_single_compute ℕ [] "k" 7 8 none none none none false false 0 1000
    rfl rfl (by decide)

/-! ## Claim C7 -/

/-- C7: a slot with start ≤ end (as minutes) matches exactly the query
times in the inclusive same-day window [start, end]; a slot with
start > end wraps past midnight and matches exactly the times t with
t ≥ start or t ≤ end. In particular a 22:00-02:00 slot matches 23:30 and
01:00 but not 10:00. -/
theorem c7_time_slot_window :
    (∀ cur s e : String,
      isTimeInRange cur s e = true ↔
        (if timeToMinutes s ≤ timeToMinutes e
         then timeToMinutes s ≤ timeToMinutes cur ∧
           timeToMinutes cur ≤ timeToMinutes e
         else timeToMinutes s ≤ timeToMinutes cur ∨
           timeToMinutes cur ≤ timeToMinutes e)) ∧
    isTimeInRange "23:30" "22:00" "02:00" = true ∧
    isTimeInRange "01:00" "22:00" "02:00" = true ∧
    isTimeInRange "10:00" "22:00" "02:00" = false := by
  refine ⟨?_, by decide, by decide, by decide⟩
  intro cur s e
  by_cases h : timeToMinutes s ≤ timeToMinutes e <;>
    simp [isTimeInRange, h, ge_iff_le]

/-! ## Claim C8 -/

/-- C8: `checkWaitingSpots` selects the first spot in the list's given order
whose (haversine) distance from the sample to the spot's center is within
the spot's radius: a matching head is selected regardless of the rest, a
non-matching head is skipped, and for a sample lying inside the radii of two
overlapping spots the one listed earlier is selected — regardless of which
center is nearer. -/
theorem c8_first_match_wins (loc : Location) (A B : WaitingSpot)
    (rest : List WaitingSpot) :
    (calculateDistance loc ⟨A.latitude, A.longitude⟩ ≤ A.radius →
      checkWaitingSpots (A :: rest) loc = some A) ∧
    (¬ calculateDistance loc ⟨A.latitude, A.longitude⟩ ≤ A.radius →
      checkWaitingSpots (A :: rest) loc = checkWaitingSpots rest loc) ∧
    (calculateDistance loc ⟨A.latitude, A.longitude⟩ ≤ A.radius →
      calculateDistance loc ⟨B.latitude, B.longitude⟩ ≤ B.radius →
      checkWaitingSpots (A :: B :: rest) loc = some A) := by
  refine ⟨fun h => ?_, fun h => ?_, fun h _ => ?_⟩ <;>
    simp [checkWaitingSpots, h]

/-- C8 witness: a sample at the shared center of `spotA` (radius 100 m,
listed first) and `spotB` (radius 50 m, center equally near) resolves to
`spotA`; a spot on the far side of the globe is skipped. -/
theorem c8_first_match_wins_witness :
    checkWaitingSpots [spotA] ⟨0, 0⟩ = some spotA ∧
    checkWaitingSpots [spotFar, spotB] ⟨0, 0⟩ = checkWaitingSpots [spotB] ⟨0, 0⟩ ∧
    checkWaitingSpots [spotA, spotB] ⟨0, 0⟩ = some spotA := by
  have hA : calculateDistance ⟨0, 0⟩ ⟨spotA.latitude, spotA.longitude⟩ ≤
      spotA.radius := by
    show calculateDistance ⟨0, 0⟩ ⟨0, 0⟩ ≤ (100 : ℝ)
    rw [calculateDistance_self]
    norm_num
  have hB : calculateDistance ⟨0, 0⟩ ⟨spotB.latitude, spotB.longitude⟩ ≤
      spotB.radius := by
    show calculateDistance ⟨0, 0⟩ ⟨0, 0⟩ ≤ (50 : ℝ)
    rw [calculateDistance_self]
    norm_num
  have hFar : ¬ calculateDistance ⟨0, 0⟩ ⟨spotFar.latitude, spotFar.longitude⟩ ≤
      spotFar.radius := by
    show ¬ calculateDistance ⟨0, 0⟩ ⟨0, 180⟩ ≤ (100 : ℝ)
    rw [calculateDistance_antipodal]
    push_neg
    nlinarith [Real.pi_gt_three]
  exact ⟨(c8_first_match_wins ⟨0, 0⟩ spotA spotB []).1 hA,
    (c8_first_match_wins ⟨0, 0⟩ spotFar spotB [spotB]).2.1 hFar,
    (c8_first_match_wins ⟨0, 0⟩ spotA spotB []).2.2 hA hB⟩

/-! ## Claim C9 -/

theorem round_jsMod_big (v : ℝ) (h1 : (359.5 : ℝ) ≤ v) (h2 : v < 360) :
    round (jsMod v 360) = 360 := by
  have hfloor : ⌊v / 360⌋ = 0 := by
    rw [Int.floor_eq_zero_iff, Set.mem_Ico]
    constructor
    · positivity
    · rw [div_lt_one (by norm_num)]; linarith
  simp only [jsMod, hfloor]
  norm_num [round_eq]
  exact Int.floor_eq_iff.mpr ⟨by push_cast; linarith, by push_cast; linarith⟩

/-- C9, evaluated at the failing input: for the magnetometer sample
`(x, y, z) = (-1, -1000, 0)` the derived heading is `atan2(-1000, -1)`
≈ −90.057°, which normalizes to ≈ 359.94° after the +90° rotation, and
`Math.round` then yields 360 — so `calculateHeading` does return the value
360, contradicting the claim that the result always lies in [0, 360). -/
theorem c9_failing_input : calculateHeading (-1) (-1000) 0 = 360 := by
  have hpi3 := Real.pi_gt_three
  have hpi0 : (0 : ℝ) < Real.pi := by linarith
  have hA_lt : Real.arctan 1000 < Real.pi / 2 := Real.arctan_lt_pi_div_two 1000
  have hInv : Real.arctan ((1000 : ℝ)⁻¹) = Real.pi / 2 - Real.arctan 1000 :=
    Real.arctan_inv_of_pos (by norm_num)
  have hSmall : Real.arctan ((1000 : ℝ)⁻¹) ≤ (1000 : ℝ)⁻¹ :=
    arctan_le_of_nonneg (by norm_num)
  have hA_ge : Real.pi / 2 - (1000 : ℝ)⁻¹ ≤ Real.arctan 1000 := by
    linarith [hInv ▸ hSmall]
  have hB0 : (0 : ℝ) < 180 / Real.pi := by positivity
  have hBlt : (180 : ℝ) / Real.pi < 60 := by rw [div_lt_iff₀ hpi0]; linarith
  have h90 : Real.pi / 2 * (180 / Real.pi) = 90 := by field_simp; ring
  have hu_hi : Real.arctan 1000 * (180 / Real.pi) < 90 := by
    have := mul_lt_mul_of_pos_right hA_lt hB0
    linarith
  have hu_lo : (89.9 : ℝ) ≤ Real.arctan 1000 * (180 / Real.pi) := by
    have h1 := mul_le_mul_of_nonneg_right hA_ge hB0.le
    have h2 : (Real.pi / 2 - (1000 : ℝ)⁻¹) * (180 / Real.pi) =
        90 - (1000 : ℝ)⁻¹ * (180 / Real.pi) := by rw [sub_mul, h90]
    have h3 : (1000 : ℝ)⁻¹ * (180 / Real.pi) < (1000 : ℝ)⁻¹ * 60 :=
      mul_lt_mul_of_pos_left hBlt (by norm_num)
    rw [h2] at h1
    norm_num at h3 ⊢
    linarith
  have hatan : atan2 (-1000) (-1) = Real.arctan 1000 - Real.pi := by
    simp only [atan2]
    rw [if_neg (by norm_num : ¬ (0 : ℝ) < -1), if_pos (by norm_num : (-1 : ℝ) < 0),
      if_neg (by norm_num : ¬ (0 : ℝ) ≤ -1000)]
    norm_num
  have hsub : (Real.arctan 1000 - Real.pi) * (180 / Real.pi) =
      Real.arctan 1000 * (180 / Real.pi) - 180 := by
    rw [sub_mul]
    congr 1
    field_simp
  have hlt0 : (Real.arctan 1000 - Real.pi) * (180 / Real.pi) < 0 :=
    mul_neg_of_neg_of_pos (by linarith) hB0
  simp only [calculateHeading]
  rw [hatan, if_pos hlt0]
  apply round_jsMod_big
  · rw [hsub] at *
    linarith
  · rw [hsub] at *
    linarith

/-! ## Claim C10 -/

/-- C10: every entry written through `set` carries a positive finite TTL:
the resolved TTL is always positive, an omitted or zero (falsy) `ttl` option
resolves to the 300-second travel-recommendations default regardless of the
key, the stored entry holds `some (resolveTtl options)`, and on such an
entry `isExpired` always reduces to the strict time comparison — the
`!cached.ttl` never-expires branch is unreachable for entries written by
`set`. -/
theorem c10_set_positive_ttl (α : Type) (now : ℤ) (cache : LocalCache α)
    (key : String) (v : α) (options : Option ℕ) (remoteFails : Bool) :
    0 < resolveTtl options ∧
    resolveTtl none = 300 ∧
    resolveTtl (some 0) = 300 ∧
    mapGet (set now cache key v options remoteFails).1 key =
      some ⟨v, now, some (resolveTtl options)⟩ ∧
    (∀ t : ℤ, isExpired t (⟨v, now, some (resolveTtl options)⟩ : CachedData α) =
      decide ((resolveTtl options : ℤ) * 1000 < t - now)) := by
  refine ⟨resolveTtl_pos options, rfl, rfl, ?_, ?_⟩
  · simp [set, setInLocalCache, mapGet_mapSet_self]
  · intro t
    simp only [isExpired]
    rw [if_neg (resolveTtl_pos options).ne']

end NJGo
